import Mathlib

/-!
Verification of the FacebookAPI serverless integration layer
(src/app.py and src/facebook_layer/facebook_service.py) against its
natural-language specification.

The Python code is shallowly embedded: JSON values become the inductive
`JVal`, Python dictionaries become association lists, every outbound HTTP
call is abstracted by a `RemoteResult` argument (the decoded response, or
the transport exception the `requests` library raised), and a Python
function that can raise is embedded with an `Except` result type.
-/

/-- JSON values as decoded by `response.json()` and as built by the Python
dictionaries of the source.  Objects are association lists in insertion
order; numbers are integers (no fractional literals occur in the modelled
code paths). -/
inductive JVal where
  | null
  | bool (b : Bool)
  | str (s : String)
  | num (n : Int)
  | obj (fields : List (String × JVal))
  | arr (elems : List JVal)

mutual

/-- Decidable structural equality for `JVal` (the automatic deriving does
not handle the nested lists). -/
def jvalDecEq : (a b : JVal) → Decidable (a = b)
  | .null, .null => isTrue rfl
  | .bool a, .bool b =>
    if h : a = b then isTrue (by rw [h])
    else isFalse (by intro hh; cases hh; exact h rfl)
  | .str a, .str b =>
    if h : a = b then isTrue (by rw [h])
    else isFalse (by intro hh; cases hh; exact h rfl)
  | .num a, .num b =>
    if h : a = b then isTrue (by rw [h])
    else isFalse (by intro hh; cases hh; exact h rfl)
  | .obj fs1, .obj fs2 =>
    match jfieldsDecEq fs1 fs2 with
    | isTrue h => isTrue (by rw [h])
    | isFalse n => isFalse (by intro hh; cases hh; exact n rfl)
  | .arr xs1, .arr xs2 =>
    match jlistDecEq xs1 xs2 with
    | isTrue h => isTrue (by rw [h])
    | isFalse n => isFalse (by intro hh; cases hh; exact n rfl)
  | .null, .bool _ => isFalse (fun h => JVal.noConfusion h)
  | .null, .str _ => isFalse (fun h => JVal.noConfusion h)
  | .null, .num _ => isFalse (fun h => JVal.noConfusion h)
  | .null, .obj _ => isFalse (fun h => JVal.noConfusion h)
  | .null, .arr _ => isFalse (fun h => JVal.noConfusion h)
  | .bool _, .null => isFalse (fun h => JVal.noConfusion h)
  | .bool _, .str _ => isFalse (fun h => JVal.noConfusion h)
  | .bool _, .num _ => isFalse (fun h => JVal.noConfusion h)
  | .bool _, .obj _ => isFalse (fun h => JVal.noConfusion h)
  | .bool _, .arr _ => isFalse (fun h => JVal.noConfusion h)
  | .str _, .null => isFalse (fun h => JVal.noConfusion h)
  | .str _, .bool _ => isFalse (fun h => JVal.noConfusion h)
  | .str _, .num _ => isFalse (fun h => JVal.noConfusion h)
  | .str _, .obj _ => isFalse (fun h => JVal.noConfusion h)
  | .str _, .arr _ => isFalse (fun h => JVal.noConfusion h)
  | .num _, .null => isFalse (fun h => JVal.noConfusion h)
  | .num _, .bool _ => isFalse (fun h => JVal.noConfusion h)
  | .num _, .str _ => isFalse (fun h => JVal.noConfusion h)
  | .num _, .obj _ => isFalse (fun h => JVal.noConfusion h)
  | .num _, .arr _ => isFalse (fun h => JVal.noConfusion h)
  | .obj _, .null => isFalse (fun h => JVal.noConfusion h)
  | .obj _, .bool _ => isFalse (fun h => JVal.noConfusion h)
  | .obj _, .str _ => isFalse (fun h => JVal.noConfusion h)
  | .obj _, .num _ => isFalse (fun h => JVal.noConfusion h)
  | .obj _, .arr _ => isFalse (fun h => JVal.noConfusion h)
  | .arr _, .null => isFalse (fun h => JVal.noConfusion h)
  | .arr _, .bool _ => isFalse (fun h => JVal.noConfusion h)
  | .arr _, .str _ => isFalse (fun h => JVal.noConfusion h)
  | .arr _, .num _ => isFalse (fun h => JVal.noConfusion h)
  | .arr _, .obj _ => isFalse (fun h => JVal.noConfusion h)

/-- Decidable equality of JSON object field lists. -/
def jfieldsDecEq : (a b : List (String × JVal)) → Decidable (a = b)
  | [], [] => isTrue rfl
  | [], _ :: _ => isFalse (fun h => List.noConfusion h)
  | _ :: _, [] => isFalse (fun h => List.noConfusion h)
  | (k1, v1) :: t1, (k2, v2) :: t2 =>
    if hk : k1 = k2 then
      match jvalDecEq v1 v2 with
      | isTrue hv =>
        match jfieldsDecEq t1 t2 with
        | isTrue ht => isTrue (by rw [hk, hv, ht])
        | isFalse n => isFalse (by intro hh; cases hh; exact n rfl)
      | isFalse n => isFalse (by intro hh; cases hh; exact n rfl)
    else isFalse (by intro hh; cases hh; exact hk rfl)

/-- Decidable equality of JSON arrays. -/
def jlistDecEq : (a b : List JVal) → Decidable (a = b)
  | [], [] => isTrue rfl
  | [], _ :: _ => isFalse (fun h => List.noConfusion h)
  | _ :: _, [] => isFalse (fun h => List.noConfusion h)
  | a :: t1, b :: t2 =>
    match jvalDecEq a b with
    | isTrue ha =>
      match jlistDecEq t1 t2 with
      | isTrue ht => isTrue (by rw [ha, ht])
      | isFalse n => isFalse (by intro hh; cases hh; exact n rfl)
    | isFalse n => isFalse (by intro hh; cases hh; exact n rfl)

end

instance : DecidableEq JVal := jvalDecEq

/-- Key lookup in a JSON object (`d[k]` / `d.get(k)` on a Python dict).
Non-objects have no keys. -/
def jget : JVal → String → Option JVal
  | .obj fs, k => fs.lookup k
  | _, _ => none

/-- Python truthiness of a JSON value (`if x:`). -/
def jvTruthy : JVal → Bool
  | .null => false
  | .bool b => b
  | .str s => s ≠ ""
  | .num n => n ≠ 0
  | .obj fs => fs ≠ []
  | .arr xs => xs ≠ []

/-- Python truthiness of a possibly-missing value (`if event.get(k):`,
where a missing key yields `None`). -/
def jTruthy : Option JVal → Bool
  | none => false
  | some v => jvTruthy v

/-- Truthiness of an optional string parameter (`if mm_url:` where the
parameter is a string or `None`). -/
def optStrTruthy : Option String → Bool
  | none => false
  | some s => s ≠ ""

/-- Python `str.lower()` (the code only lowercases ASCII platform names
and host names). -/
def pyLower (s : String) : String := String.mk (s.toList.map Char.toLower)

/-- List prefix test used to embed Python `str.startswith`. -/
def listIsPre : List Char → List Char → Bool
  | [], _ => true
  | _ :: _, [] => false
  | a :: as, b :: bs => a = b && listIsPre as bs

/-- Python `s.startswith(p)`. -/
def pyStartsWith (s p : String) : Bool := listIsPre p.toList s.toList

/-- Substring containment, embedding Python `needle in haystack` on
strings. -/
def containsSub : List Char → List Char → Bool
  | needle, [] => listIsPre needle []
  | needle, h :: t => listIsPre needle (h :: t) || containsSub needle t

/-- Python `needle in hay` for strings. -/
def strIn (needle hay : String) : Bool := containsSub needle.toList hay.toList

/-- Splits a character list at the first occurrence of `c`, dropping the
separator; if `c` does not occur the second component is empty
(Python `url.split(c, 1)` guarded by `if c in url`). -/
def splitFirst : List Char → Char → List Char × List Char
  | [], _ => ([], [])
  | h :: t, c =>
    if h = c then ([], t)
    else
      let (l, r) := splitFirst t c
      (h :: l, r)

/-- Characters permitted in a URL scheme by `urllib.parse`
(letters, digits, `+`, `-`, `.`). -/
def isSchemeChar (c : Char) : Bool := c.isAlphanum || c = '+' || c = '-' || c = '.'

/-- Scheme extraction of `urllib.parse.urlsplit`: the text before the
first `:` is the scheme when it is non-empty, starts with a letter and
consists of scheme characters; it is returned lowercased together with
the remainder.  Otherwise the input is left whole. -/
def schemeSplitAux : List Char → List Char → Option (List Char × List Char)
  | _, [] => none
  | acc, c :: rest =>
    if c = ':' then
      if acc.isEmpty then none else some (acc.reverse, rest)
    else if isSchemeChar c then schemeSplitAux (c :: acc) rest
    else none

/-- Result of `urllib.parse.urlparse` restricted to the four components
the source reads.  The `params` component (a `;` suffix of the last path
segment) is not separated here, so `path` includes any params text; for
the predicate `path.startswith("/rtmp/")` used by the source the two
conventions agree, because params-splitting removes only a suffix that
starts at or after the last `/` of the path. -/
structure ParsedUrl where
  scheme : String
  netloc : String
  path : String
  query : String
deriving Repr, DecidableEq

/-- Embedding of `urllib.parse.urlparse` (fragment is parsed and
discarded since the source never reads it). -/
def urlparseChars (l : List Char) : ParsedUrl :=
  let (scheme, rest) :=
    match l with
    | c :: _ =>
      if c.isAlpha then
        match schemeSplitAux [] l with
        | some (sch, r) => (pyLower (String.mk sch), r)
        | none => ("", l)
      else ("", l)
    | [] => ("", l)
  let (netloc, rest2) :=
    match rest with
    | '/' :: '/' :: r =>
      let nl := r.takeWhile (fun c => c ≠ '/' && c ≠ '?' && c ≠ '#')
      (String.mk nl, r.drop nl.length)
    | _ => ("", rest)
  let (rest3, _fragment) := splitFirst rest2 '#'
  let (path, query) := splitFirst rest3 '?'
  { scheme := scheme, netloc := netloc,
    path := String.mk path, query := String.mk query }

/-- Embedding of `urllib.parse.urlparse` on strings. -/
def urlparse (s : String) : ParsedUrl := urlparseChars s.toList

instance {ε α : Type} [DecidableEq ε] [DecidableEq α] : DecidableEq (Except ε α)
  | .ok a, .ok b =>
    if h : a = b then isTrue (by rw [h])
    else isFalse (by intro hh; cases hh; exact h rfl)
  | .error a, .error b =>
    if h : a = b then isTrue (by rw [h])
    else isFalse (by intro hh; cases hh; exact h rfl)
  | .ok _, .error _ => isFalse (fun h => Except.noConfusion h)
  | .error _, .ok _ => isFalse (fun h => Except.noConfusion h)

/-- `FacebookService.extract_stream_details`: decomposes a Facebook Live
ingest URL into server URL and stream key; raises `ValueError` (embedded
as `Except.error`) when the path lacks the `/rtmp/` prefix. -/
def extract_stream_details (stream_url : String) : Except String (String × String) :=
  let parsed := urlparse stream_url
  let path := parsed.path
  let query := parsed.query
  if ¬ pyStartsWith path "/rtmp/" then
    .error "Invalid stream URL format: missing /rtmp/ path prefix"
  else
    let stream_id := path.drop 6
    let stream_key := if query ≠ "" then stream_id ++ "?" ++ query else stream_id
    let server_url := parsed.scheme ++ "://" ++ parsed.netloc ++ "/rtmp"
    .ok (server_url, stream_key)

/-- Outcome of one outbound HTTP call made through the `requests` library:
either the decoded JSON body (`response.json()`), or the message of the
exception the transport raised. -/
inductive RemoteResult where
  | json (j : JVal)
  | exn (msg : String)

/-- JSON value of an optional string parameter (`None` becomes JSON null
when stored in a result dictionary). -/
def optStr : Option String → JVal
  | none => .null
  | some s => .str s

/-- Exception message used when a `None` platform argument reaches
`platform.lower()` inside a try block (the Python `AttributeError` text
is abstracted to this fixed string). -/
def noneLowerMsg : String := "AttributeError: NoneType has no attribute lower"

/-- `FacebookService.init_reel_upload` (step 1 of the media state
machine).  `remote` is the outcome of the single POST the function makes
(Instagram container creation or Facebook upload start); the function
catches every exception, so it always returns a dictionary.  The unused
`instagram_id` keyword parameter of the source is omitted: it is
overwritten before any read.  The `traceback` entry of the exception
record is abstracted by the exception message. -/
def init_reel_upload (page_id page_access_token description video_url : String)
    (platform : Option String) (now : String) (remote : RemoteResult) : JVal :=
  match platform with
  | none =>
    JVal.obj [("status", .str "error"), ("platform", .null),
      ("error_details", .str noneLowerMsg), ("traceback", .str noneLowerMsg),
      ("phase", .str "initialization"), ("timestamp", .str now)]
  | some plat =>
    if pyLower plat = "instagram" then
      let instagram_id := page_id
      if instagram_id = "" then
        JVal.obj [("status", .str "error"), ("platform", .str plat),
          ("error_details", .str "instagram_id is required for Instagram platform"),
          ("phase", .str "initialization"), ("timestamp", .str now)]
      else
        match remote with
        | .exn m =>
          JVal.obj [("status", .str "error"), ("platform", .str plat),
            ("error_details", .str m), ("traceback", .str m),
            ("phase", .str "initialization"), ("timestamp", .str now)]
        | .json create_resp =>
          match jget create_resp "id" with
          | none =>
            JVal.obj [("status", .str "error"), ("platform", .str plat),
              ("instagram_id", .str instagram_id), ("error_details", create_resp),
              ("phase", .str "media_creation"), ("timestamp", .str now)]
          | some cid =>
            JVal.obj [("status", .str "pending"), ("platform", .str plat),
              ("instagram_id", .str instagram_id), ("creation_id", cid),
              ("video_id", cid), ("description", .str description),
              ("phase", .str "initialized"), ("timestamp", .str now)]
    else
      match remote with
      | .exn m =>
        JVal.obj [("status", .str "error"), ("platform", .str plat),
          ("error_details", .str m), ("traceback", .str m),
          ("phase", .str "initialization"), ("timestamp", .str now)]
      | .json start_result =>
        match jget start_result "error" with
        | some err =>
          JVal.obj [("status", .str "error"), ("platform", .str plat),
            ("page_id", .str page_id), ("error_details", err),
            ("phase", .str "start"), ("timestamp", .str now)]
        | none =>
          let video_id := jget start_result "video_id"
          if ¬ jTruthy video_id then
            JVal.obj [("status", .str "error"), ("platform", .str plat),
              ("page_id", .str page_id),
              ("error_details", .str "Missing video_id in start response"),
              ("phase", .str "start"), ("timestamp", .str now)]
          else
            JVal.obj [("status", .str "pending"), ("platform", .str plat),
              ("page_id", .str page_id), ("video_id", video_id.getD .null),
              ("description", .str description),
              ("phase", .str "initialized"), ("timestamp", .str now)]

/-- Whether `FacebookService.upload_hosted_file` issues its network
request: Instagram skips the phase, and the two Facebook URL validations
return before the request is made. -/
def upload_hosted_file_makes_request (file_url : String) (platform : Option String) : Bool :=
  match platform with
  | none => false
  | some plat =>
    if pyLower plat = "instagram" then false
    else if ¬ pyStartsWith file_url "https://" then false
    else if strIn "fbcdn.net" (pyLower (urlparse file_url).netloc) then false
    else true

/-- `FacebookService.upload_hosted_file` (step 2, Facebook only).
Validates the source URL (HTTPS scheme, not a Meta CDN host) before the
upload request; Instagram short-circuits the phase.  All exceptions are
caught and become the final error record. -/
def upload_hosted_file (page_id page_access_token video_id file_url : String)
    (platform : Option String) (now : String) (remote : RemoteResult) : JVal :=
  match platform with
  | none =>
    JVal.obj [("status", .str "error"), ("platform", .null),
      ("error_details", .str noneLowerMsg), ("traceback", .str noneLowerMsg),
      ("phase", .str "upload_hosted_file"), ("timestamp", .str now)]
  | some plat =>
    if pyLower plat = "instagram" then
      JVal.obj [("status", .str "success"), ("platform", .str plat),
        ("phase", .str "upload_skipped_for_instagram"),
        ("message", .str "Instagram processes video directly from URL in init step"),
        ("timestamp", .str now)]
    else
      if ¬ pyStartsWith file_url "https://" then
        JVal.obj [("status", .str "error"), ("platform", .str plat),
          ("page_id", .str page_id), ("video_id", .str video_id),
          ("error_details", .str "File URL must use HTTPS protocol"),
          ("phase", .str "upload_hosted_file"), ("timestamp", .str now)]
      else if strIn "fbcdn.net" (pyLower (urlparse file_url).netloc) then
        JVal.obj [("status", .str "error"), ("platform", .str plat),
          ("page_id", .str page_id), ("video_id", .str video_id),
          ("error_details", .str "Files hosted on Meta CDN (fbcdn) are not supported. Use crossposting instead."),
          ("phase", .str "upload_hosted_file"), ("timestamp", .str now)]
      else
        match remote with
        | .exn m =>
          JVal.obj [("status", .str "error"), ("platform", .str plat),
            ("error_details", .str m), ("traceback", .str m),
            ("phase", .str "upload_hosted_file"), ("timestamp", .str now)]
        | .json result =>
          if jget result "success" = some (.bool true) then
            JVal.obj [("status", .str "success"), ("platform", .str plat),
              ("page_id", .str page_id), ("video_id", .str video_id),
              ("phase", .str "file_uploaded"), ("timestamp", .str now)]
          else
            JVal.obj [("status", .str "error"), ("platform", .str plat),
              ("page_id", .str page_id), ("video_id", .str video_id),
              ("error_details", (jget result "error").getD (.str "Unknown error")),
              ("phase", .str "upload_hosted_file"), ("timestamp", .str now)]

/-- `FacebookService.check_reel_upload_status` (step 3).  Polls the
processing status of the uploaded media; `remote` is the outcome of the
single status GET.  The `instagram_id` and `creation_id` keyword
parameters of the source are omitted: both are overwritten from
`page_id` and `video_id` before any read. -/
def check_reel_upload_status (page_id page_access_token video_id : String)
    (platform : Option String) (now : String) (remote : RemoteResult) : JVal :=
  match platform with
  | none =>
    JVal.obj [("status", .str "error"), ("platform", .null),
      ("error_details", .str noneLowerMsg), ("traceback", .str noneLowerMsg),
      ("phase", .str "check_status"), ("timestamp", .str now)]
  | some plat =>
    if pyLower plat = "instagram" then
      let instagram_id := page_id
      let creation_id := video_id
      if creation_id = "" then
        JVal.obj [("status", .str "error"), ("platform", .str plat),
          ("instagram_id", .str instagram_id),
          ("error_details", .str "creation_id is required for Instagram status check"),
          ("phase", .str "check_status"), ("timestamp", .str now)]
      else
        match remote with
        | .exn m =>
          JVal.obj [("status", .str "error"), ("platform", .str plat),
            ("error_details", .str m), ("traceback", .str m),
            ("phase", .str "check_status"), ("timestamp", .str now)]
        | .json status_result =>
          match jget status_result "error" with
          | some err =>
            JVal.obj [("status", .str "error"), ("platform", .str plat),
              ("instagram_id", .str instagram_id), ("creation_id", .str creation_id),
              ("error_details", err),
              ("phase", .str "check_status"), ("timestamp", .str now)]
          | none =>
            match jget status_result "status_code" with
            | some status_code =>
              if status_code = .str "FINISHED" then
                JVal.obj [("status", .str "ready"), ("platform", .str plat),
                  ("instagram_id", .str instagram_id), ("creation_id", .str creation_id),
                  ("phase", .str "video_ready"), ("timestamp", .str now)]
              else if status_code = .str "ERROR" then
                JVal.obj [("status", .str "error"), ("platform", .str plat),
                  ("instagram_id", .str instagram_id), ("creation_id", .str creation_id),
                  ("error_details", .str "Video processing failed"),
                  ("phase", .str "processing"), ("timestamp", .str now)]
              else
                JVal.obj [("status", .str "processing"), ("platform", .str plat),
                  ("instagram_id", .str instagram_id), ("creation_id", .str creation_id),
                  ("status_code", status_code),
                  ("phase", .str "awaiting_ready"), ("timestamp", .str now)]
            | none =>
              JVal.obj [("status", .str "unknown"), ("platform", .str plat),
                ("instagram_id", .str instagram_id), ("creation_id", .str creation_id),
                ("raw_response", status_result),
                ("phase", .str "check_status"), ("timestamp", .str now)]
    else
      match remote with
      | .exn m =>
        JVal.obj [("status", .str "error"), ("platform", .str plat),
          ("error_details", .str m), ("traceback", .str m),
          ("phase", .str "check_status"), ("timestamp", .str now)]
      | .json status_result =>
        match jget status_result "error" with
        | some err =>
          JVal.obj [("status", .str "error"), ("platform", .str plat),
            ("page_id", .str page_id), ("video_id", .str video_id),
            ("error_details", err),
            ("phase", .str "check_status"), ("timestamp", .str now)]
        | none =>
          match jget status_result "status" with
          | some st =>
            let video_status := jget st "video_status"
            if video_status = some (.str "ready") then
              JVal.obj [("status", .str "ready"), ("platform", .str plat),
                ("page_id", .str page_id), ("video_id", .str video_id),
                ("phase", .str "video_ready"), ("timestamp", .str now)]
            else if video_status = some (.str "error") then
              JVal.obj [("status", .str "error"), ("platform", .str plat),
                ("page_id", .str page_id), ("video_id", .str video_id),
                ("error_details", .str "Video processing failed"),
                ("facebook_error", (jget st "error").getD .null),
                ("phase", .str "upload"), ("timestamp", .str now)]
            else
              JVal.obj [("status", .str "processing"), ("platform", .str plat),
                ("page_id", .str page_id), ("video_id", .str video_id),
                ("video_status", video_status.getD .null),
                ("phase", .str "awaiting_ready"), ("raw_status", st),
                ("timestamp", .str now)]
          | none =>
            JVal.obj [("status", .str "unknown"), ("platform", .str plat),
              ("page_id", .str page_id), ("video_id", .str video_id),
              ("raw_response", status_result),
              ("phase", .str "check_status"), ("timestamp", .str now)]

/-- `FacebookService.publish_reel` (step 4).  Issues the finish/publish
call; `remote` is its outcome.  The `instagram_id` and `creation_id`
keyword parameters of the source are omitted (overwritten before any
read); `audio_name` and `thumbnail_url` only extend the outbound request
parameters and do not influence the result record. -/
def publish_reel (page_id page_access_token video_id description : String)
    (platform : Option String) (share_to_feed : Bool)
    (audio_name thumbnail_url : Option String) (now : String)
    (remote : RemoteResult) : JVal :=
  match platform with
  | none =>
    JVal.obj [("status", .str "error"), ("platform", .null),
      ("error_details", .str noneLowerMsg), ("traceback", .str noneLowerMsg),
      ("phase", .str "publish"), ("timestamp", .str now)]
  | some plat =>
    if pyLower plat = "instagram" then
      let instagram_id := page_id
      let creation_id := video_id
      if instagram_id = "" ∨ creation_id = "" then
        JVal.obj [("status", .str "error"), ("platform", .str plat),
          ("error_details", .str "instagram_id and creation_id are required for Instagram publishing"),
          ("phase", .str "publish"), ("timestamp", .str now)]
      else
        match remote with
        | .exn m =>
          JVal.obj [("status", .str "error"), ("platform", .str plat),
            ("error_details", .str m), ("traceback", .str m),
            ("phase", .str "publish"), ("timestamp", .str now)]
        | .json publish_resp =>
          match jget publish_resp "id" with
          | some mid =>
            JVal.obj [("status", .str "success"), ("platform", .str plat),
              ("instagram_id", .str instagram_id), ("media_id", mid),
              ("creation_id", .str creation_id),
              ("phase", .str "published"), ("timestamp", .str now)]
          | none =>
            JVal.obj [("status", .str "error"), ("platform", .str plat),
              ("instagram_id", .str instagram_id), ("creation_id", .str creation_id),
              ("error_details", publish_resp),
              ("phase", .str "publish"), ("timestamp", .str now)]
    else
      match remote with
      | .exn m =>
        JVal.obj [("status", .str "error"), ("platform", .str plat),
          ("error_details", .str m), ("traceback", .str m),
          ("phase", .str "publish"), ("timestamp", .str now)]
      | .json finish_result =>
        if jget finish_result "success" = some (.bool true) then
          JVal.obj [("status", .str "success"), ("platform", .str plat),
            ("page_id", .str page_id),
            ("reel_id", (jget finish_result "post_id").getD .null),
            ("video_id", .str video_id),
            ("message", (jget finish_result "message").getD .null),
            ("share_to_feed", .bool share_to_feed),
            ("phase", .str "published"), ("timestamp", .str now)]
        else
          match jget finish_result "id" with
          | some rid =>
            JVal.obj [("status", .str "success"), ("platform", .str plat),
              ("page_id", .str page_id), ("reel_id", rid),
              ("video_id", .str video_id),
              ("permalink_url", (jget finish_result "permalink_url").getD .null),
              ("share_to_feed", .bool share_to_feed),
              ("phase", .str "published"), ("timestamp", .str now)]
          | none =>
            JVal.obj [("status", .str "error"), ("platform", .str plat),
              ("page_id", .str page_id), ("video_id", .str video_id),
              ("error_details", (jget finish_result "error").getD (.obj [])),
              ("phase", .str "publish"), ("timestamp", .str now)]

/-- Graph endpoint selected by `FacebookService.post_to_facebook_page`
from the media type (photos, videos, or plain feed post). -/
def post_to_facebook_page_endpoint (page_id : String) (mediaType mm_url : Option String) : String :=
  if mediaType = some "image" ∧ optStrTruthy mm_url then
    "https://graph.facebook.com/v18.0/" ++ page_id ++ "/photos"
  else if mediaType = some "video" ∧ optStrTruthy mm_url then
    "https://graph.facebook.com/v18.0/" ++ page_id ++ "/videos"
  else
    "https://graph.facebook.com/v18.0/" ++ page_id ++ "/feed"

/-- `FacebookService.post_to_facebook_page`: posts to the endpoint chosen
by `post_to_facebook_page_endpoint` and returns `response.json()`
unwrapped.  The source has no try/except around the request, so a
transport exception propagates to the caller (`Except.error`). -/
def post_to_facebook_page (page_id page_access_token message : String)
    (mediaType mm_url : Option String) (remote : RemoteResult) : Except String JVal :=
  match remote with
  | .exn m => .error m
  | .json j => .ok j

/-- Fields requested by `FacebookService.get_page_feed` (the long default
list is used when the caller passes `None`). -/
def get_page_feed_fields (fields : Option String) : String :=
  fields.getD "id,message,created_time,full_picture,permalink_url,shares,reactions.summary(total_count),comments.summary(total_count)"

/-- `FacebookService.get_page_feed`: a read-only pass-through call that
returns `response.json()` unwrapped; no try/except, so a transport
exception propagates to the caller. -/
def get_page_feed (page_id page_access_token : String) (limit : Int)
    (fields : Option String) (remote : RemoteResult) : Except String JVal :=
  match remote with
  | .exn m => .error m
  | .json j => .ok j

/-- The method names defined in the body of `class FacebookService`
(src/facebook_layer/facebook_service.py).  Attribute access on any other
name raises `AttributeError`. -/
def facebookServiceMethods : List String :=
  ["__init__", "_load_secrets", "extract_stream_details", "create_live_stream",
   "verify_webhook", "process_webhook_event", "publish_to_eventbridge",
   "get_user_access_token", "extend_user_access_token", "extend_page_access_token",
   "get_facebook_pages", "get_page_data", "post_to_facebook_page",
   "init_reel_upload", "upload_hosted_file", "check_reel_upload_status",
   "publish_reel", "post_reel", "get_page_feed", "reply_to_comment",
   "is_own_comment", "send_message", "send_message_with_attachment",
   "send_quick_reply_message", "send_template_message", "mark_message_as_seen",
   "set_typing_indicator", "get_user_profile", "process_messaging_webhook",
   "_process_feed_event", "_get_comment_thread_context", "extract_page_info",
   "_store_page_token", "_get_stored_page_token", "get_page_subscriptions",
   "subscribe_app_to_page", "unsubscribe_app_from_page_fields",
   "get_instagram_profile_details", "post_to_instagram"]

/-- Exceptions that can cross the dispatcher embeddings. -/
inductive PyExn where
  | attributeError (name : String)
  | valueError (msg : String)
deriving DecidableEq

/-- Python `str(e)` for the exceptions above (the `AttributeError` text
is abbreviated; the source formats it as a quoted attribute name). -/
def pyExnStr : PyExn → String
  | .attributeError n => "FacebookService object has no attribute " ++ n
  | .valueError m => m

/-- String read from an event field for forwarding to a service call;
the dispatcher branches modelled here are embedded for string-valued
events (a non-string id or token would only change the text embedded in
the outbound request URL). -/
def jStr : Option JVal → String
  | some (.str s) => s
  | _ => ""

/-- Optional string read from an event field: a missing or non-string
value reaches the service as a non-string `platform` and makes
`platform.lower()` raise inside the service try block, which is the
`none` case of the service embeddings. -/
def jStrOpt : Option JVal → Option String
  | some (.str s) => some s
  | _ => none

/-- Branch `action == 'check_reel_upload_status'` of
`handle_step_function_request` (src/app.py): validates the required
parameters and returns the service result unchanged — no attempt counter
is read, incremented or attached on this path. -/
def dispatch_check_reel_upload_status (event : JVal) (now : String)
    (remote : RemoteResult) : JVal :=
  let page_id := jget event "page_id"
  let page_access_token := jget event "page_access_token"
  let video_id := jget event "video_id"
  let platform := jget event "platform"
  if ¬ jTruthy page_id ∨ ¬ jTruthy page_access_token ∨ ¬ jTruthy video_id then
    JVal.obj [("error", .str "Missing required parameters: page_id, page_access_token, or video_id")]
  else
    check_reel_upload_status (jStr page_id) (jStr page_access_token)
      (jStr video_id) (jStrOpt platform) now remote

/-- Branch `action == 'create_instagram_media'` of
`handle_step_function_request`: after the parameter check it calls
`fb_service.create_instagram_media`, a method `FacebookService` does not
define, so the attribute access raises `AttributeError`. -/
def dispatch_create_instagram_media (event : JVal) : Except PyExn JVal :=
  let instagram_id :=
    if jTruthy (jget event "instagram_id") then jget event "instagram_id"
    else jget event "page_id"
  let page_access_token := jget event "page_access_token"
  let caption :=
    if jTruthy (jget event "caption") then jget event "caption"
    else jget event "message"
  if ¬ jTruthy instagram_id ∨ ¬ jTruthy page_access_token ∨ ¬ jTruthy caption then
    .ok (JVal.obj [("error", .str "Missing required parameters: instagram_id, page_access_token, caption")])
  else if facebookServiceMethods.contains "create_instagram_media" then
    .ok JVal.null  -- never reached: the attribute lookup below raises first
  else
    .error (.attributeError "create_instagram_media")

/-- Branch `action == 'check_instagram_media_status'` of
`handle_step_function_request`: the call targets the undefined method
`check_instagram_media_status`, so the `AttributeError` is raised before
the `attempt := event.get('attempt', 0) + 1` enrichment that follows the
call in the source. -/
def dispatch_check_instagram_media_status (event : JVal) : Except PyExn JVal :=
  let creation_id := jget event "creation_id"
  let page_access_token := jget event "page_access_token"
  if ¬ jTruthy creation_id ∨ ¬ jTruthy page_access_token then
    .ok (JVal.obj [("error", .str "Missing required parameters: creation_id, page_access_token")])
  else if facebookServiceMethods.contains "check_instagram_media_status" then
    .ok JVal.null  -- never reached: the attribute lookup below raises first
  else
    .error (.attributeError "check_instagram_media_status")

/-- Branch `action == 'publish_instagram_media'` of
`handle_step_function_request`: the call targets the undefined method
`publish_instagram_media`, so the `AttributeError` is raised before the
`not_ready` echo-and-increment block that follows the call in the
source. -/
def dispatch_publish_instagram_media (event : JVal) : Except PyExn JVal :=
  let instagram_id := jget event "instagram_id"
  let creation_id := jget event "creation_id"
  let page_access_token := jget event "page_access_token"
  if ¬ jTruthy instagram_id ∨ ¬ jTruthy creation_id ∨ ¬ jTruthy page_access_token then
    .ok (JVal.obj [("error", .str "Missing required parameters: instagram_id, creation_id, page_access_token")])
  else if facebookServiceMethods.contains "publish_instagram_media" then
    .ok JVal.null  -- never reached: the attribute lookup below raises first
  else
    .error (.attributeError "publish_instagram_media")

/-- Modelled from the spec: `response_helper.create_error_response` lives
in the response layer, which is not under src/; per the spec it wraps a
message into a structured error record rather than letting an exception
escape to the caller. -/
def create_error_response (msg : String) : JVal :=
  JVal.obj [("statusCode", .num 500), ("error", .str msg)]

/-- Top-level `lambda_handler` behaviour for a Step Functions event: the
dispatcher result is returned unchanged, and any exception the dispatch
raised is converted by `response_helper.create_error_response`. -/
def lambda_handler_step (dispatch : Except PyExn JVal) : JVal :=
  match dispatch with
  | .ok r => r
  | .error e => create_error_response (pyExnStr e)

/-- Remote collaborators consulted while normalizing one webhook change:
the DynamoDB token store, the three read-only Graph fetches of the
thread-context enrichment (each keyed by the id it is requested for;
`none` models the `requests.exceptions.RequestException` the try block
of `_get_comment_thread_context` catches), and `get_page_data` for the
owner info (`none` models a transport exception there, which the source
does not catch). -/
structure GraphOracle where
  storedToken : Option JVal → Option String
  postFetch : Option JVal → Option JVal
  parentFetch : Option JVal → Option JVal
  siblingsFetch : Option JVal → Option JVal
  pageData : Option JVal → Option String → Option JVal

/-- `FacebookService.is_own_comment`: a comment is the page's own when
the commenter id equals the receiving page id (both read with `.get`, so
either may be missing). -/
def is_own_comment (commenter_id page_id : Option JVal) : Bool :=
  commenter_id = page_id

/-- `FacebookService._get_comment_thread_context`: fetches post content
and the comment thread; a `RequestException` anywhere in the try block
returns the context built so far (post content still `None` and thread
empty when the first fetch failed; thread empty when a later fetch
failed).  The `comment_id` parameter is accepted and unused, as in the
source. -/
def get_comment_thread_context (o : GraphOracle)
    (post_id comment_id parent_id : Option JVal) (is_top_level : Bool) : JVal :=
  let hierarchy := JVal.str (if is_top_level then "top_level" else "reply")
  match o.postFetch post_id with
  | none =>
    JVal.obj [("post_content", .null), ("comment_thread", .arr []),
      ("hierarchy", hierarchy)]
  | some post_data =>
    let post_content := (jget post_data "message").getD (.str "")
    if ¬ is_top_level then
      match o.parentFetch parent_id with
      | none =>
        JVal.obj [("post_content", post_content), ("comment_thread", .arr []),
          ("hierarchy", hierarchy)]
      | some thread_data =>
        JVal.obj [("post_content", post_content),
          ("comment_thread", .arr [JVal.obj [
            ("id", parent_id.getD .null),
            ("message", (jget thread_data "message").getD .null),
            ("created_time", (jget thread_data "created_time").getD .null),
            ("from", (jget thread_data "from").getD .null),
            ("replies", (jget ((jget thread_data "comments").getD (.obj [])) "data").getD (.arr []))]]),
          ("hierarchy", hierarchy)]
    else
      match o.siblingsFetch post_id with
      | none =>
        JVal.obj [("post_content", post_content), ("comment_thread", .arr []),
          ("hierarchy", hierarchy)]
      | some resp =>
        JVal.obj [("post_content", post_content),
          ("comment_thread", (jget resp "data").getD (.arr [])),
          ("hierarchy", hierarchy)]

/-- `FacebookService._process_feed_event`: normalizes one webhook change
value.  Comment-add changes authored by the page itself yield `none`
(dropped); other comment-add changes are enriched and emitted; every
other change yields `none`.  The only uncaught exception on this path is
a transport failure of `get_page_data` (owner info), embedded as
`Except.error`. -/
def process_feed_event (o : GraphOracle) (value : JVal) (page_id : Option JVal) :
    Except String (Option JVal) :=
  if jget value "item" = some (.str "comment") ∧ jget value "verb" = some (.str "add") then
    let commenter_id := jget ((jget value "from").getD (.obj [])) "id"
    if is_own_comment commenter_id page_id then
      .ok none
    else
      let page_access_token := o.storedToken page_id
      let comment_data := JVal.obj [
        ("comment_id", (jget value "comment_id").getD .null),
        ("post_id", (jget value "post_id").getD .null),
        ("parent_id", (jget value "parent_id").getD .null),
        ("message", (jget value "message").getD .null),
        ("created_time", (jget value "created_time").getD .null),
        ("from", JVal.obj [
          ("id", commenter_id.getD .null),
          ("name", (jget ((jget value "from").getD (.obj [])) "name").getD .null)])]
      let is_top_level := jget value "parent_id" = jget value "post_id"
      let thread_context := get_comment_thread_context o (jget value "post_id")
        (jget value "comment_id") (jget value "parent_id") is_top_level
      match o.pageData page_id page_access_token with
      | none => .error "transport exception in get_page_data"
      | some owner_info =>
        let post := (jget value "post").getD (.obj [])
        .ok (some (JVal.obj [
          ("item", (jget value "item").getD .null),
          ("verb", (jget value "verb").getD .null),
          ("page_access_token", optStr page_access_token),
          ("comment_data", comment_data),
          ("thread_context", thread_context),
          ("comment_level", .str (if is_top_level then "top_level" else "reply")),
          ("owner_info", owner_info),
          ("post_data", JVal.obj [
            ("id", (jget post "id").getD .null),
            ("status_type", (jget post "status_type").getD .null),
            ("is_published", (jget post "is_published").getD .null),
            ("updated_time", (jget post "updated_time").getD .null),
            ("permalink_url", (jget post "permalink_url").getD .null)])]))
  else
    .ok none

/-- Elements of a JSON array (`for x in l` over a decoded list; the
webhook schema's `entry` and `changes` members are lists). -/
def asArr : JVal → List JVal
  | .arr xs => xs
  | _ => []

/-- The inner loop of `process_webhook_event`: each change of an entry is
normalized and the non-`none` results are collected in order; an
exception raised by `_process_feed_event` propagates. -/
def process_changes (o : GraphOracle) (page_id : Option JVal) :
    List JVal → Except String (List JVal)
  | [] => .ok []
  | change :: rest =>
    match process_feed_event o ((jget change "value").getD (.obj [])) page_id with
    | .error e => .error e
    | .ok ev =>
      match process_changes o page_id rest with
      | .error e => .error e
      | .ok tail =>
        match ev with
        | some ev_info => .ok (ev_info :: tail)
        | none => .ok tail

/-- The outer loop of `process_webhook_event` over payload entries. -/
def process_entries (o : GraphOracle) : List JVal → Except String (List JVal)
  | [] => .ok []
  | entry :: rest =>
    match process_changes o (jget entry "id")
      (asArr ((jget entry "changes").getD (.arr []))) with
    | .error e => .error e
    | .ok evs =>
      match process_entries o rest with
      | .error e => .error e
      | .ok tail => .ok (evs ++ tail)

/-- `FacebookService.process_webhook_event`: validates that the payload
is addressed to a page (raising `ValueError` otherwise, embedded as
`Except.error`) and collects the normalized events of every change of
every entry. -/
def process_webhook_event (o : GraphOracle) (payload : JVal) :
    Except String (List JVal) :=
  if jget payload "object" ≠ some (.str "page") then
    .error "Received webhook is not for a page"
  else
    process_entries o (asArr ((jget payload "entry").getD (.arr [])))

/-- C8: `extract_stream_details` decomposes the documented sample ingest
URL into the expected server URL and stream key, and raises a
`ValueError` for every input URL whose parsed path does not start with
`/rtmp/`. -/
theorem claim_C8_theorem :
    extract_stream_details "rtmps://live-api-s.facebook.com:443/rtmp/123?s_bl=1"
      = .ok ("rtmps://live-api-s.facebook.com:443/rtmp", "123?s_bl=1") ∧
    ∀ (stream_url : String), pyStartsWith (urlparse stream_url).path "/rtmp/" = false →
      extract_stream_details stream_url
        = .error "Invalid stream URL format: missing /rtmp/ path prefix" := by
  refine ⟨by decide, ?_⟩
  intro s h
  unfold extract_stream_details
  simp [h]

/-- C8 witness: a URL without the `/rtmp/` path prefix fails validation. -/
theorem claim_C8_witness :
    pyStartsWith (urlparse "https://example.com/live/123").path "/rtmp/" = false ∧
    extract_stream_details "https://example.com/live/123"
      = .error "Invalid stream URL format: missing /rtmp/ path prefix" :=
  ⟨by decide, claim_C8_theorem.2 "https://example.com/live/123" (by decide)⟩

/-- C5: on Facebook, `publish_reel` recognizes both platform success
shapes — `(success := true, post_id)` and `(id, permalink_url)` — and
returns status success with phase published for each. -/
theorem claim_C5_theorem : ∀ (page_id tok video_id desc : String) (share : Bool)
    (audio thumb : Option String) (now p i u : String),
    (jget (publish_reel page_id tok video_id desc (some "facebook") share audio thumb now
        (.json (.obj [("success", .bool true), ("post_id", .str p)]))) "status"
        = some (.str "success") ∧
     jget (publish_reel page_id tok video_id desc (some "facebook") share audio thumb now
        (.json (.obj [("success", .bool true), ("post_id", .str p)]))) "phase"
        = some (.str "published")) ∧
    (jget (publish_reel page_id tok video_id desc (some "facebook") share audio thumb now
        (.json (.obj [("id", .str i), ("permalink_url", .str u)]))) "status"
        = some (.str "success") ∧
     jget (publish_reel page_id tok video_id desc (some "facebook") share audio thumb now
        (.json (.obj [("id", .str i), ("permalink_url", .str u)]))) "phase"
        = some (.str "published")) := by
  intro page_id tok video_id desc share audio thumb now p i u
  exact ⟨⟨rfl, rfl⟩, ⟨rfl, rfl⟩⟩

/-- C2 counterexample: a check-status invocation with attempt counter 5
returns a record with no attempt counter at all, not one equal to 6. -/
theorem claim_C2_counterexample :
    jget (dispatch_check_reel_upload_status
      (JVal.obj [("action", .str "check_reel_upload_status"), ("page_id", .str "p1"),
        ("page_access_token", .str "t1"), ("video_id", .str "v1"),
        ("platform", .str "facebook"), ("attempt", .num 5)])
      "T0" (.json (.obj [("status", .obj [("video_status", .str "uploading")])])))
      "attempt" = none ∧
    jget (dispatch_check_reel_upload_status
      (JVal.obj [("action", .str "check_reel_upload_status"), ("page_id", .str "p1"),
        ("page_access_token", .str "t1"), ("video_id", .str "v1"),
        ("platform", .str "facebook"), ("attempt", .num 5)])
      "T0" (.json (.obj [("status", .obj [("video_status", .str "uploading")])])))
      "attempt" ≠ some (.num 6) := by decide

/-- C2 amended: no check-status invocation echoes an attempt counter —
for every event, platform and remote response the returned record has no
attempt field (the increment exists only in the unreachable
`check_instagram_media_status` dispatcher branch). -/
theorem claim_C2_theorem : ∀ (event : JVal) (now : String) (remote : RemoteResult)
    (pid tok vid : String) (plat : Option String),
    jget (dispatch_check_reel_upload_status event now remote) "attempt" = none ∧
    jget (check_reel_upload_status pid tok vid plat now remote) "attempt" = none := by
  intro event now remote pid tok vid plat
  constructor
  · simp only [dispatch_check_reel_upload_status, check_reel_upload_status]
    repeat' split
    all_goals rfl
  · simp only [check_reel_upload_status]
    repeat' split
    all_goals rfl

/-- C7 counterexample: an Instagram publish invocation that receives a
transient not-ready platform error response returns status error with no
publish_attempt counter, not status not_ready. -/
theorem claim_C7_counterexample :
    jget (publish_reel "ig1" "t1" "c123" "desc" (some "instagram") true none none "T0"
      (.json (.obj [("error", .obj [("message", .str "Media ID is not available")])])))
      "status" = some (.str "error") ∧
    jget (publish_reel "ig1" "t1" "c123" "desc" (some "instagram") true none none "T0"
      (.json (.obj [("error", .obj [("message", .str "Media ID is not available")])])))
      "status" ≠ some (.str "not_ready") ∧
    jget (publish_reel "ig1" "t1" "c123" "desc" (some "instagram") true none none "T0"
      (.json (.obj [("error", .obj [("message", .str "Media ID is not available")])])))
      "publish_attempt" = none := by decide

/-- C7 amended: `publish_reel` never produces a not_ready status and
never attaches a publish_attempt counter, for any platform, input or
remote response; transient not-ready platform responses surface as
status error records. -/
theorem claim_C7_theorem : ∀ (pid tok vid desc : String) (plat : Option String)
    (share : Bool) (audio thumb : Option String) (now : String) (remote : RemoteResult),
    jget (publish_reel pid tok vid desc plat share audio thumb now remote) "status"
      ≠ some (.str "not_ready") ∧
    jget (publish_reel pid tok vid desc plat share audio thumb now remote) "publish_attempt"
      = none := by
  intro pid tok vid desc plat share audio thumb now remote
  simp only [publish_reel]
  repeat' split
  all_goals refine ⟨?_, rfl⟩
  all_goals intro hcontra
  all_goals simp [jget] at hcontra

/-- A result record either omits `key` or carries exactly the string `v`
there — the id-echo discipline of the upload state machine. -/
def echoes (r : JVal) (key v : String) : Prop :=
  jget r key = none ∨ jget r key = some (.str v)

/-- C9 counterexample: the Instagram branch of `upload_hosted_file`
returns a record that carries neither the video id nor a creation id it
was given, so a subsequent operation does not always return the id. -/
theorem claim_C9_counterexample :
    jget (upload_hosted_file "p1" "t1" "VID1" "https://example.com/v.mp4"
      (some "instagram") "T0" (.json .null)) "video_id" = none ∧
    jget (upload_hosted_file "p1" "t1" "VID1" "https://example.com/v.mp4"
      (some "instagram") "T0" (.json .null)) "creation_id" = none := by decide

/-- C9 amended: the id is assigned by `init` from the platform response
(Facebook `video_id`; Instagram container `id` doubling as creation and
video id), and every subsequent operation either omits the id field or
echoes exactly the id it was given — never a different one. -/
theorem claim_C9_theorem : ∀ (pid tok vid url desc : String) (plat : Option String)
    (share : Bool) (audio thumb : Option String) (now : String)
    (remote : RemoteResult) (w : String),
    (echoes (upload_hosted_file pid tok vid url plat now remote) "video_id" vid ∧
     echoes (upload_hosted_file pid tok vid url plat now remote) "creation_id" vid) ∧
    (echoes (check_reel_upload_status pid tok vid plat now remote) "video_id" vid ∧
     echoes (check_reel_upload_status pid tok vid plat now remote) "creation_id" vid) ∧
    (echoes (publish_reel pid tok vid desc plat share audio thumb now remote) "video_id" vid ∧
     echoes (publish_reel pid tok vid desc plat share audio thumb now remote) "creation_id" vid) ∧
    (w ≠ "" →
      jget (init_reel_upload pid tok desc url (some "facebook") now
        (.json (.obj [("video_id", .str w)]))) "video_id" = some (.str w)) ∧
    (pid ≠ "" →
      jget (init_reel_upload pid tok desc url (some "instagram") now
        (.json (.obj [("id", .str w)]))) "video_id" = some (.str w) ∧
      jget (init_reel_upload pid tok desc url (some "instagram") now
        (.json (.obj [("id", .str w)]))) "creation_id" = some (.str w)) := by
  intro pid tok vid url desc plat share audio thumb now remote w
  refine ⟨?_, ?_, ?_, ?_, ?_⟩
  · simp only [upload_hosted_file]
    repeat' split
    all_goals first
      | exact ⟨Or.inl rfl, Or.inl rfl⟩
      | exact ⟨Or.inr rfl, Or.inl rfl⟩
      | exact ⟨Or.inl rfl, Or.inr rfl⟩
      | exact ⟨Or.inr rfl, Or.inr rfl⟩
  · simp only [check_reel_upload_status]
    repeat' split
    all_goals first
      | exact ⟨Or.inl rfl, Or.inl rfl⟩
      | exact ⟨Or.inr rfl, Or.inl rfl⟩
      | exact ⟨Or.inl rfl, Or.inr rfl⟩
      | exact ⟨Or.inr rfl, Or.inr rfl⟩
  · simp only [publish_reel]
    repeat' split
    all_goals first
      | exact ⟨Or.inl rfl, Or.inl rfl⟩
      | exact ⟨Or.inr rfl, Or.inl rfl⟩
      | exact ⟨Or.inl rfl, Or.inr rfl⟩
      | exact ⟨Or.inr rfl, Or.inr rfl⟩
  · intro hw
    simp only [init_reel_upload]
    have : jTruthy (jget (JVal.obj [("video_id", .str w)]) "video_id") = true := by
      simp [jget, jTruthy, jvTruthy, hw]
    simp [this]
    rfl
  · intro hpid
    rw [show init_reel_upload pid tok desc url (some "instagram") now
        (.json (.obj [("id", .str w)]))
      = JVal.obj [("status", .str "pending"), ("platform", .str "instagram"),
          ("instagram_id", .str pid), ("creation_id", .str w),
          ("video_id", .str w), ("description", .str desc),
          ("phase", .str "initialized"), ("timestamp", .str now)] from by
        simp only [init_reel_upload]
        rw [if_pos (by decide), if_neg hpid]
        rfl]
    exact ⟨rfl, rfl⟩

/-- C9 witness: the init assignment conjuncts hold at a concrete page id
and platform video id. -/
theorem claim_C9_witness :
    ("V9" : String) ≠ "" ∧ ("ig9" : String) ≠ "" ∧
    jget (init_reel_upload "ig9" "t9" "d9" "https://e.example/v.mp4" (some "facebook") "T0"
      (.json (.obj [("video_id", .str "V9")]))) "video_id" = some (.str "V9") ∧
    jget (init_reel_upload "ig9" "t9" "d9" "https://e.example/v.mp4" (some "instagram") "T0"
      (.json (.obj [("id", .str "V9")]))) "video_id" = some (.str "V9") :=
  ⟨by decide, by decide,
   ( claim_C9_theorem "ig9" "t9" "v0" "https://e.example/v.mp4" "d9" (some "facebook")
      true none none "T0" (.json .null) "V9").2.2.2.1 (by decide),
   (( claim_C9_theorem "ig9" "t9" "v0" "https://e.example/v.mp4" "d9" (some "facebook")
      true none none "T0" (.json .null) "V9").2.2.2.2 (by decide)).1⟩

/-- A failure record of the state-machine operations as the spec
describes it: tagged status error, with error details and a timestamp. -/
def errTagged (r : JVal) (now : String) : Prop :=
  jget r "status" = some (.str "error") ∧ (jget r "error_details").isSome = true ∧
    jget r "timestamp" = some (.str now)

/-- C1 counterexample: `post_to_facebook_page` lets a transport exception
escape to its caller instead of returning a tagged error record. -/
theorem claim_C1_counterexample :
    post_to_facebook_page "p1" "t1" "hello" none none
      (.exn "ConnectionError: network unreachable")
      = .error "ConnectionError: network unreachable" := rfl

/-- C1 amended: the media state-machine operations convert every
transport exception into a status-error record carrying error_details
and timestamp and never raise, while the pass-through operations
`post_to_facebook_page` and `get_page_feed` return the raw decoded
response and propagate transport exceptions to their caller. -/
theorem claim_C1_theorem : ∀ (pid tok desc url vid message now m : String)
    (plat : Option String) (share : Bool) (audio thumb : Option String)
    (mediaType mm_url fields : Option String) (limit : Int),
    errTagged (init_reel_upload pid tok desc url plat now (.exn m)) now ∧
    errTagged (upload_hosted_file pid tok vid url (some "facebook") now (.exn m)) now ∧
    errTagged (check_reel_upload_status pid tok vid plat now (.exn m)) now ∧
    errTagged (publish_reel pid tok vid desc plat share audio thumb now (.exn m)) now ∧
    post_to_facebook_page pid tok message mediaType mm_url (.exn m) = .error m ∧
    get_page_feed pid tok limit fields (.exn m) = .error m := by
  intro pid tok desc url vid message now m plat share audio thumb mediaType mm_url fields limit
  refine ⟨?_, ?_, ?_, ?_, rfl, rfl⟩
  · simp only [init_reel_upload]
    repeat' split
    all_goals exact ⟨rfl, rfl, rfl⟩
  · simp only [upload_hosted_file]
    repeat' split
    all_goals first
      | exact ⟨rfl, rfl, rfl⟩
      | (rename_i h; exact absurd h (by decide))
  · simp only [check_reel_upload_status]
    repeat' split
    all_goals exact ⟨rfl, rfl, rfl⟩
  · simp only [publish_reel]
    repeat' split
    all_goals exact ⟨rfl, rfl, rfl⟩

/-- A successful list prefix test exhibits the remaining suffix. -/
theorem listIsPre_exists : ∀ (p l : List Char), listIsPre p l = true → ∃ t, l = p ++ t := by
  intro p
  induction p with
  | nil => intro l _; exact ⟨l, rfl⟩
  | cons a as ih =>
    intro l h
    cases l with
    | nil => simp [listIsPre] at h
    | cons b bs =>
      simp only [listIsPre, Bool.and_eq_true, decide_eq_true_eq] at h
      obtain ⟨t, ht⟩ := ih bs h.2
      exact ⟨t, by rw [List.cons_append, ← h.1, ht]⟩

/-- Any character list starting with the literal `https://` parses to
scheme `https`. -/
theorem urlparse_https_scheme : ∀ (t : List Char),
    (urlparseChars ('h' :: 't' :: 't' :: 'p' :: 's' :: ':' :: '/' :: '/' :: t)).scheme
      = "https" := by
  intro t
  rfl

/-- A URL whose parsed scheme is not `https` cannot start with the
literal `https://`. -/
theorem scheme_ne_https_not_startsWith : ∀ (url : String),
    (urlparse url).scheme ≠ "https" → pyStartsWith url "https://" = false := by
  intro url h
  by_contra hb
  have hcontra : pyStartsWith url "https://" = true := by
    cases hx : pyStartsWith url "https://" with
    | false => exact absurd hx hb
    | true => rfl
  obtain ⟨t, ht⟩ := listIsPre_exists _ _ hcontra
  apply h
  unfold urlparse
  rw [ht]
  exact urlparse_https_scheme t

/-- C6: for every Facebook source URL whose scheme is not https or whose
host contains the fbcdn CDN domain, `upload_hosted_file` returns a
status-error record with phase upload_hosted_file and issues no network
request. -/
theorem claim_C6_theorem : ∀ (page_id tok video_id file_url now : String)
    (remote : RemoteResult),
    ((urlparse file_url).scheme ≠ "https" ∨
      strIn "fbcdn.net" (pyLower (urlparse file_url).netloc) = true) →
    jget (upload_hosted_file page_id tok video_id file_url (some "facebook") now remote)
      "status" = some (.str "error") ∧
    jget (upload_hosted_file page_id tok video_id file_url (some "facebook") now remote)
      "phase" = some (.str "upload_hosted_file") ∧
    upload_hosted_file_makes_request file_url (some "facebook") = false := by
  intro page_id tok video_id file_url now remote h
  have hpl : pyLower "facebook" = "facebook" := by decide
  rcases h with h | h
  · have hsw : pyStartsWith file_url "https://" = false :=
      scheme_ne_https_not_startsWith _ h
    simp [upload_hosted_file, upload_hosted_file_makes_request, hpl, hsw, jget, List.lookup]
  · by_cases hsw : pyStartsWith file_url "https://" = true
    · simp [upload_hosted_file, upload_hosted_file_makes_request, hpl, hsw, h, jget, List.lookup]
    · have hsw2 : pyStartsWith file_url "https://" = false := by
        cases hx : pyStartsWith file_url "https://" with
        | false => rfl
        | true => exact absurd hx hsw
      simp [upload_hosted_file, upload_hosted_file_makes_request, hpl, hsw2, jget, List.lookup]

/-- C6 witness: a non-HTTPS URL is rejected without a network call. -/
theorem claim_C6_witness :
    ((urlparse "http://example.com/v.mp4").scheme ≠ "https" ∨
      strIn "fbcdn.net" (pyLower (urlparse "http://example.com/v.mp4").netloc) = true) ∧
    (jget (upload_hosted_file "p1" "t1" "v1" "http://example.com/v.mp4"
        (some "facebook") "T0" (.json .null)) "status" = some (.str "error") ∧
     jget (upload_hosted_file "p1" "t1" "v1" "http://example.com/v.mp4"
        (some "facebook") "T0" (.json .null)) "phase" = some (.str "upload_hosted_file") ∧
     upload_hosted_file_makes_request "http://example.com/v.mp4" (some "facebook") = false) :=
  ⟨Or.inl (by decide),
   claim_C6_theorem "p1" "t1" "v1" "http://example.com/v.mp4" "T0" (.json .null)
     (Or.inl (by decide))⟩

/-- C10: for every Step Functions event whose required parameters are
present, the three Instagram media actions call methods that do not
exist on `FacebookService`; the `AttributeError` is caught by
`lambda_handler` and converted to an error response, which carries no
status field, so these actions can never produce a success result. -/
theorem claim_C10_theorem : ∀ (e1 e2 e3 : JVal),
    (jTruthy (jget e1 "instagram_id") = true →
     jTruthy (jget e1 "page_access_token") = true →
     jTruthy (jget e1 "caption") = true →
     lambda_handler_step (dispatch_create_instagram_media e1)
        = create_error_response (pyExnStr (.attributeError "create_instagram_media")) ∧
     jget (lambda_handler_step (dispatch_create_instagram_media e1)) "status" = none) ∧
    (jTruthy (jget e2 "creation_id") = true →
     jTruthy (jget e2 "page_access_token") = true →
     lambda_handler_step (dispatch_check_instagram_media_status e2)
        = create_error_response (pyExnStr (.attributeError "check_instagram_media_status")) ∧
     jget (lambda_handler_step (dispatch_check_instagram_media_status e2)) "status" = none) ∧
    (jTruthy (jget e3 "instagram_id") = true →
     jTruthy (jget e3 "creation_id") = true →
     jTruthy (jget e3 "page_access_token") = true →
     lambda_handler_step (dispatch_publish_instagram_media e3)
        = create_error_response (pyExnStr (.attributeError "publish_instagram_media")) ∧
     jget (lambda_handler_step (dispatch_publish_instagram_media e3)) "status" = none) := by
  intro e1 e2 e3
  have hc1 : "create_instagram_media" ∉ facebookServiceMethods := by decide
  have hc2 : "check_instagram_media_status" ∉ facebookServiceMethods := by decide
  have hc3 : "publish_instagram_media" ∉ facebookServiceMethods := by decide
  refine ⟨?_, ?_, ?_⟩
  · intro h1 h2 h3
    have hd : dispatch_create_instagram_media e1
        = .error (.attributeError "create_instagram_media") := by
      simp [dispatch_create_instagram_media, h1, h2, h3, hc1]
    rw [hd]
    exact ⟨rfl, by decide⟩
  · intro h1 h2
    have hd : dispatch_check_instagram_media_status e2
        = .error (.attributeError "check_instagram_media_status") := by
      simp [dispatch_check_instagram_media_status, h1, h2, hc2]
    rw [hd]
    exact ⟨rfl, by decide⟩
  · intro h1 h2 h3
    have hd : dispatch_publish_instagram_media e3
        = .error (.attributeError "publish_instagram_media") := by
      simp [dispatch_publish_instagram_media, h1, h2, h3, hc3]
    rw [hd]
    exact ⟨rfl, by decide⟩

/-- C10 witness: concrete well-formed events for the three actions all
yield the structured error response. -/
theorem claim_C10_witness :
    (jTruthy (jget (JVal.obj [("instagram_id", .str "ig1"),
        ("page_access_token", .str "t1"), ("caption", .str "c1")]) "instagram_id") = true ∧
     lambda_handler_step (dispatch_create_instagram_media
        (JVal.obj [("instagram_id", .str "ig1"), ("page_access_token", .str "t1"),
          ("caption", .str "c1")]))
        = create_error_response (pyExnStr (.attributeError "create_instagram_media"))) ∧
    (lambda_handler_step (dispatch_check_instagram_media_status
        (JVal.obj [("creation_id", .str "cr1"), ("page_access_token", .str "t1")]))
        = create_error_response (pyExnStr (.attributeError "check_instagram_media_status"))) ∧
    (lambda_handler_step (dispatch_publish_instagram_media
        (JVal.obj [("instagram_id", .str "ig1"), ("creation_id", .str "cr1"),
          ("page_access_token", .str "t1")]))
        = create_error_response (pyExnStr (.attributeError "publish_instagram_media"))) :=
  ⟨⟨by decide,
    ((claim_C10_theorem
        (JVal.obj [("instagram_id", .str "ig1"), ("page_access_token", .str "t1"),
          ("caption", .str "c1")])
        (JVal.obj [("creation_id", .str "cr1"), ("page_access_token", .str "t1")])
        (JVal.obj [("instagram_id", .str "ig1"), ("creation_id", .str "cr1"),
          ("page_access_token", .str "t1")])).1
      (by decide) (by decide) (by decide)).1⟩,
   ((claim_C10_theorem
        (JVal.obj [("instagram_id", .str "ig1"), ("page_access_token", .str "t1"),
          ("caption", .str "c1")])
        (JVal.obj [("creation_id", .str "cr1"), ("page_access_token", .str "t1")])
        (JVal.obj [("instagram_id", .str "ig1"), ("creation_id", .str "cr1"),
          ("page_access_token", .str "t1")])).2.1
      (by decide) (by decide)).1,
   ((claim_C10_theorem
        (JVal.obj [("instagram_id", .str "ig1"), ("page_access_token", .str "t1"),
          ("caption", .str "c1")])
        (JVal.obj [("creation_id", .str "cr1"), ("page_access_token", .str "t1")])
        (JVal.obj [("instagram_id", .str "ig1"), ("creation_id", .str "cr1"),
          ("page_access_token", .str "t1")])).2.2
      (by decide) (by decide) (by decide)).1⟩

/-- C3: a comment-add change whose commenter id equals the receiving
page id is dropped by `_process_feed_event` (returns `None`) and
contributes nothing to the event list of `process_webhook_event`. -/
theorem claim_C3_theorem : ∀ (o : GraphOracle) (value : JVal) (page_id : Option JVal),
    jget value "item" = some (.str "comment") →
    jget value "verb" = some (.str "add") →
    jget ((jget value "from").getD (.obj [])) "id" = page_id →
    process_feed_event o value page_id = .ok none ∧
    ∀ (change : JVal) (pre post : List JVal), jget change "value" = some value →
      process_changes o page_id (pre ++ change :: post)
        = process_changes o page_id (pre ++ post) := by
  intro o value page_id h1 h2 h3
  have hnone : process_feed_event o value page_id = .ok none := by
    simp [process_feed_event, is_own_comment, h1, h2, h3]
  refine ⟨hnone, ?_⟩
  intro change pre post hch
  induction pre with
  | nil =>
    simp only [List.nil_append, process_changes, hch, Option.getD_some, hnone]
    cases hpc : process_changes o page_id post <;> rfl
  | cons head tail ih =>
    simp only [List.cons_append, process_changes, List.append_eq]
    rw [ih]

/-- Oracle in which every enrichment fetch fails with a transport
exception and the token store is empty, while `get_page_data` returns an
empty object. -/
def trivOracle : GraphOracle :=
  ⟨fun _ => none, fun _ => none, fun _ => none, fun _ => none, fun _ _ => some (.obj [])⟩

/-- A webhook change value whose comment-add is authored by the
receiving page itself. -/
def selfCommentValue : JVal :=
  .obj [("item", .str "comment"), ("verb", .str "add"),
    ("from", .obj [("id", .str "page1")])]

/-- A webhook change wrapping `selfCommentValue`. -/
def selfCommentChange : JVal := .obj [("value", selfCommentValue)]

/-- C3 witness: a concrete self-authored comment change is dropped and
contributes nothing to the processed list. -/
theorem claim_C3_witness :
    (jget selfCommentValue "item" = some (.str "comment") ∧
     jget selfCommentValue "verb" = some (.str "add") ∧
     jget ((jget selfCommentValue "from").getD (.obj [])) "id" = some (.str "page1")) ∧
    process_feed_event trivOracle selfCommentValue (some (.str "page1")) = .ok none ∧
    process_changes trivOracle (some (.str "page1")) ([] ++ selfCommentChange :: [])
      = process_changes trivOracle (some (.str "page1")) ([] ++ []) :=
  ⟨⟨by decide, by decide, by decide⟩,
   (claim_C3_theorem trivOracle selfCommentValue (some (.str "page1"))
      (by decide) (by decide) (by decide)).1,
   (claim_C3_theorem trivOracle selfCommentValue (some (.str "page1"))
      (by decide) (by decide) (by decide)).2 selfCommentChange [] [] (by decide)⟩

/-- C4: a qualifying (non-self-authored) comment-add change is still
emitted as an event when any thread-context enrichment fetch fails, and
its thread context then carries an empty comment thread, provided the
(uncaught) owner-info call returns. -/
theorem claim_C4_theorem : ∀ (o : GraphOracle) (value : JVal) (page_id : Option JVal)
    (w : JVal),
    jget value "item" = some (.str "comment") →
    jget value "verb" = some (.str "add") →
    ¬ (jget ((jget value "from").getD (.obj [])) "id" = page_id) →
    (o.postFetch (jget value "post_id") = none ∨
      ((jget value "parent_id" = jget value "post_id") ∧
        o.siblingsFetch (jget value "post_id") = none) ∨
      (¬ (jget value "parent_id" = jget value "post_id") ∧
        o.parentFetch (jget value "parent_id") = none)) →
    o.pageData page_id (o.storedToken page_id) = some w →
    ∃ e tc, process_feed_event o value page_id = .ok (some e) ∧
      jget e "thread_context" = some tc ∧
      jget tc "comment_thread" = some (.arr []) := by
  intro o value page_id w h1 h2 h3 h4 h5
  have hoc : is_own_comment (jget ((jget value "from").getD (.obj [])) "id") page_id
      = false := by
    simp [is_own_comment, h3]
  have hcond : jget value "item" = some (JVal.str "comment") ∧
      jget value "verb" = some (JVal.str "add") := ⟨h1, h2⟩
  simp only [process_feed_event, if_pos hcond, hoc, Bool.false_eq_true, if_false, h5]
  refine ⟨_, _, rfl, rfl, ?_⟩
  by_cases htop : jget value "parent_id" = jget value "post_id"
  · have hdec : decide (jget value "parent_id" = jget value "post_id") = true :=
      decide_eq_true htop
    rcases h4 with hpf | ⟨_, hsf⟩ | ⟨hcontra, _⟩
    · simp only [get_comment_thread_context, hpf]
      rfl
    · cases hpf : o.postFetch (jget value "post_id") with
      | none =>
        simp only [get_comment_thread_context, hpf]
        rfl
      | some pd =>
        simp only [get_comment_thread_context, hpf, hdec, not_true, if_false,
          Bool.not_true, Bool.false_eq_true, hsf]
        rfl
    · exact absurd htop hcontra
  · have hdec : decide (jget value "parent_id" = jget value "post_id") = false :=
      decide_eq_false htop
    rcases h4 with hpf | ⟨hcontra, _⟩ | ⟨_, hparf⟩
    · simp only [get_comment_thread_context, hpf]
      rfl
    · exact absurd hcontra htop
    · cases hpf : o.postFetch (jget value "post_id") with
      | none =>
        simp only [get_comment_thread_context, hpf]
        rfl
      | some pd =>
        simp only [get_comment_thread_context, hpf, hdec, Bool.not_false,
          Bool.false_eq_true, not_false_iff, if_true, hparf]
        rfl

/-- A webhook change value for a top-level comment by another user. -/
def userCommentValue : JVal :=
  .obj [("item", .str "comment"), ("verb", .str "add"),
    ("from", .obj [("id", .str "user9")]),
    ("post_id", .str "post1"), ("parent_id", .str "post1"),
    ("comment_id", .str "c1"), ("message", .str "hello")]

/-- C4 witness: a concrete non-self comment change whose post fetch
fails is still emitted, with an empty comment thread. -/
theorem claim_C4_witness :
    (jget userCommentValue "item" = some (.str "comment") ∧
     jget userCommentValue "verb" = some (.str "add") ∧
     ¬ (jget ((jget userCommentValue "from").getD (.obj [])) "id" = some (.str "page1")) ∧
     trivOracle.postFetch (jget userCommentValue "post_id") = none ∧
     trivOracle.pageData (some (.str "page1")) (trivOracle.storedToken (some (.str "page1")))
       = some (.obj [])) ∧
    ∃ e tc, process_feed_event trivOracle userCommentValue (some (.str "page1"))
        = .ok (some e) ∧
      jget e "thread_context" = some tc ∧
      jget tc "comment_thread" = some (.arr []) :=
  ⟨⟨by decide, by decide, by decide, rfl, rfl⟩,
   claim_C4_theorem trivOracle userCommentValue (some (.str "page1")) (.obj [])
     (by decide) (by decide) (by decide) (Or.inl rfl) rfl⟩
